import Mathlib

/-!
Shallow embedding of the TCP-Server repository (lbussy/TCP-Server).

The embedding covers:
* `TCP_Commands` — the example command dispatcher of
  `src/tcp_command_handler.cpp`: the handler table, `processCommand`,
  `handleCommand`, and the thirteen command handlers.
* the request parsing and single-shot client exchange of
  `TCP_Server::handle_client` (`src/tcp_server.cpp`): trim, first-space
  split, dispatch, newline append, close.
* the lifecycle of `TCP_Server` (`start`, `stop`, the setup phase of
  `run_server`), modelled as explicit state passing over a `ServerState`
  record, with the status-callback invocations recorded as a list of
  emitted `StatusEvent`s and the socket / thread interactions of the
  environment passed in explicitly.
-/

namespace TCPServerProof

/-! ## Command dispatcher (`src/tcp_command_handler.cpp`) -/

namespace TCP_Commands

/-- `TCP_Commands::handleTransmit`. -/
def handleTransmit (arg : String) : String :=
  if arg.isEmpty then "Transmit <example response>" else "Transmit set to " ++ arg

/-- `TCP_Commands::handleCall`. -/
def handleCall (arg : String) : String :=
  if arg.isEmpty then "Call <example response>" else "Call set to " ++ arg

/-- `TCP_Commands::handleGrid`. -/
def handleGrid (arg : String) : String :=
  if arg.isEmpty then "Grid <example response>" else "Grid set to " ++ arg

/-- `TCP_Commands::handlePower`. -/
def handlePower (arg : String) : String :=
  if arg.isEmpty then "Power <example response>" else "Power set to " ++ arg

/-- `TCP_Commands::handleFreq`. -/
def handleFreq (arg : String) : String :=
  if arg.isEmpty then "Freq <example response>" else "Freq set to " ++ arg

/-- `TCP_Commands::handlePPM`. -/
def handlePPM (arg : String) : String :=
  if arg.isEmpty then "PPM <example response>" else "PPM set to " ++ arg

/-- `TCP_Commands::handleSelfCal`. -/
def handleSelfCal (arg : String) : String :=
  if arg.isEmpty then "SelfCal <example response>" else "SelfCal set to " ++ arg

/-- `TCP_Commands::handleOffset`. -/
def handleOffset (arg : String) : String :=
  if arg.isEmpty then "Offset <example response>" else "Offset set to " ++ arg

/-- `TCP_Commands::handleLED`. -/
def handleLED (arg : String) : String :=
  if arg.isEmpty then "LED <example response>" else "LED set to " ++ arg

/-- `TCP_Commands::handlePort` (no argument required). -/
def handlePort : String := "Port <example response>"

/-- `TCP_Commands::handleXmit` (no argument required). -/
def handleXmit : String := "Xmit <example response>"

/-- `TCP_Commands::handleVersion` (no argument required). -/
def handleVersion : String := "Version 1.0.0"

/-- `TCP_Commands::handleHelp` (no argument required). -/
def handleHelp : String :=
  "Available commands: transmit, call, grid, power, freq, ppm, selfcal, offset, led, port, xmit, version, help"

/-- The `command_handlers` map populated by
`TCP_Commands::initializeHandlers`, as an association list of
command name to handler closure (the lambdas ignore the argument for the
four no-argument commands, exactly as in the source). -/
def command_handlers : List (String × (String → String)) :=
  [("transmit", fun arg => handleTransmit arg),
   ("call", fun arg => handleCall arg),
   ("grid", fun arg => handleGrid arg),
   ("power", fun arg => handlePower arg),
   ("freq", fun arg => handleFreq arg),
   ("ppm", fun arg => handlePPM arg),
   ("selfcal", fun arg => handleSelfCal arg),
   ("offset", fun arg => handleOffset arg),
   ("led", fun arg => handleLED arg),
   ("port", fun _ => handlePort),
   ("xmit", fun _ => handleXmit),
   ("version", fun _ => handleVersion),
   ("help", fun _ => handleHelp)]

/-- The map lookup `command_handlers.find(command)` of
`TCP_Commands::processCommand`. -/
def findHandler (command : String) : Option (String → String) :=
  (command_handlers.find? (fun p => p.fst == command)).map Prod.snd

/-- `TCP_Commands::processCommand`: invoke the matching handler, or return
the unknown-command error string. -/
def processCommand (command arg : String) : String :=
  match findHandler command with
  | some h => h arg
  | none =>
      "ERROR: Unknown command '" ++ command ++ "'. Type 'help' for a list of commands."

/-- `TCP_Commands::handleCommand`: forwards to `processCommand`. -/
def handleCommand (command arg : String) : String :=
  processCommand command arg

end TCP_Commands

/-! ## Request parsing inside `TCP_Server::handle_client`
(`src/tcp_server.cpp`, lines 276-291) -/

/-- The whitespace set `" \t\n\r"` used by the two `erase` trim passes in
`TCP_Server::handle_client`. -/
def isTrimChar (c : Char) : Bool :=
  c == ' ' || c == '\t' || c == '\n' || c == '\r'

/-- The two-pass trim of `handle_client`:
`input.erase(input.find_last_not_of(" \t\n\r") + 1)` removes the trailing
run of whitespace (everything, if the string is all whitespace), then
`input.erase(0, input.find_first_not_of(" \t\n\r"))` removes the leading
run. -/
def trimInput (s : String) : String :=
  let l := (s.toList.reverse.dropWhile isTrimChar).reverse
  String.mk (l.dropWhile isTrimChar)

/-- `input.find(' ')` followed by the split: `none` models
`pos == std::string::npos`; otherwise the pair is
`(input.substr(0, pos), input.substr(pos + 1))`. -/
def splitFirstSpace : List Char → Option (List Char × List Char)
  | [] => none
  | c :: rest =>
      if c == ' ' then some ([], rest)
      else
        match splitFirstSpace rest with
        | none => none
        | some (pre, post) => some (c :: pre, post)

/-- The parse step of `TCP_Server::handle_client`: first component is
`command`, second is `arg` (initialised empty, untouched when no space is
found). -/
def parseInput (s : String) : String × String :=
  match splitFirstSpace s.toList with
  | none => (s, "")
  | some (pre, post) => (String.mk pre, String.mk post)

/-! ## `TCP_Server::handle_client` (`src/tcp_server.cpp`, lines 262-303) -/

/-- Observable outcome of one `handle_client` run: which `(command, arg)`
pair was passed to `command_handler_->handleCommand` (if any), which bytes
were handed to `send` (if any), and whether `close(client_socket)` was
reached. -/
structure ClientTrace where
  dispatched : Option (String × String)
  written : Option String
  closed : Bool
deriving DecidableEq, Repr

/-- `TCP_Server::handle_client`, with the result of `::read` passed in as
`bytes_read` (an `Int`: the C `int` return value) and the bytes placed in
the buffer as `buffer`. A non-positive read closes the socket and returns
at once; otherwise the input is trimmed, split at the first space,
dispatched, and the response plus one `"\n"` is sent before the close. -/
def handle_client (handler : String → String → String)
    (bytes_read : Int) (buffer : String) : ClientTrace :=
  if bytes_read ≤ 0 then
    { dispatched := none, written := none, closed := true }
  else
    let input := trimInput buffer
    let p := parseInput input
    let response := handler p.1 p.2
    { dispatched := some p, written := some (response ++ "\n"), closed := true }

/-! ## `TCP_Server` lifecycle (`src/tcp_server.cpp`) -/

/-- `TCP_Server::Priority` (`src/tcp_server.hpp`). -/
inductive Priority
  | DEBUG
  | INFO
  | WARN
  | ERROR
  | FATAL
deriving DecidableEq, Repr

/-- One invocation of the status callback: severity, message, success
flag. -/
structure StatusEvent where
  priority : Priority
  message : String
  success : Bool
deriving DecidableEq, Repr

/-- The fields of `TCP_Server` touched by `start` / `stop` / `run_server`.
`command_handler` and `callback` hold the identity (an abstract tag) of
the handler pointer and of the stored `std::function`; `none` models the
null pointer / empty function. `thread_joinable` models
`server_thread_.joinable()`. -/
structure ServerState where
  port : Int
  running : Bool
  command_handler : Option Nat
  server_fd : Int
  callback : Option Nat
  thread_joinable : Bool
deriving DecidableEq, Repr

/-- The constructor `TCP_Server::TCP_Server()`: port 0, not running, null
handler, fd −1, no stored callback, no thread. -/
def initialServer : ServerState :=
  { port := 0, running := false, command_handler := none, server_fd := -1,
    callback := none, thread_joinable := false }

/-- Result of `TCP_Server::start`: return value, post state, the status
events emitted during the call, and whether a new server thread was
spawned. -/
structure StartResult where
  ret : Bool
  state : ServerState
  events : List StatusEvent
  spawned : Bool
deriving DecidableEq, Repr

/-- `TCP_Server::start(port, handler, cb)`. `spawn_ok` tells whether the
`std::thread` constructor succeeds (false models the `catch` branch).
Faithful ordering: the callback is stored first whenever `cb` is
non-null, then the already-running check (DEBUG event), then the null
handler check (ERROR event); only then are `port_`, `command_handler_`
and `running_` written and the thread launched. -/
def start (s : ServerState) (port : Int) (handler : Option Nat)
    (cb : Option Nat) (spawn_ok : Bool) : StartResult :=
  let s := if cb.isSome then { s with callback := cb } else s
  if s.running then
    { ret := false, state := s,
      events := [⟨Priority.DEBUG, "Server is already running.", false⟩],
      spawned := false }
  else if handler.isNone then
    { ret := false, state := s,
      events := [⟨Priority.ERROR, "Invalid command handler provided.", false⟩],
      spawned := false }
  else
    let s := { s with port := port, command_handler := handler, running := true }
    if spawn_ok then
      { ret := true, state := { s with thread_joinable := true },
        events := [⟨Priority.INFO,
          "Server started successfully on port " ++ toString port, true⟩],
        spawned := true }
    else
      { ret := false, state := { s with running := false },
        events := [⟨Priority.ERROR, "Failed to start server thread.", false⟩],
        spawned := false }

/-- Result of `TCP_Server::stop`: post state, emitted events, and whether
the call reached `server_thread_.join()`. -/
structure StopResult where
  state : ServerState
  events : List StatusEvent
  joined : Bool
deriving DecidableEq, Repr

/-- `TCP_Server::stop()`: early return when not running; otherwise clear
the running flag, close the listening socket if open, join the server
thread when joinable (the code has no check of which thread is calling),
and emit the INFO shutdown event. -/
def stop (s : ServerState) : StopResult :=
  if !s.running then
    { state := s, events := [], joined := false }
  else
    let s := { s with running := false }
    let s := if s.server_fd != -1 then { s with server_fd := -1 } else s
    if s.thread_joinable then
      { state := { s with thread_joinable := false },
        events := [⟨Priority.INFO, "Server stopped.", true⟩], joined := true }
    else
      { state := s,
        events := [⟨Priority.INFO, "Server stopped.", true⟩], joined := false }

/-- Outcomes of the system calls made in the setup phase of
`TCP_Server::run_server`: the fd returned by `::socket` (negative means
failure) and the success of `setsockopt`, `bind` and `listen`. -/
structure NetEnv where
  socket_fd : Int
  setsockopt_ok : Bool
  bind_ok : Bool
  listen_ok : Bool
deriving DecidableEq, Repr

/-- Result of the setup phase of `run_server`: post state, events,
whether an error path invoked `stop()`, whether that embedded `stop()`
call reached `server_thread_.join()` (run_server executes on the server
thread, so a reached join there is a self-join), and whether setup made
it to the accept loop. -/
structure SetupResult where
  state : ServerState
  events : List StatusEvent
  stop_called : Bool
  stop_reached_join : Bool
  listening : Bool
deriving DecidableEq, Repr

/-- The setup phase of `TCP_Server::run_server` (lines 177-223): create
the socket (on failure emit ERROR and clear `running_`), store the fd,
then on `setsockopt` / `bind` / `listen` failure emit ERROR and call
`stop()`; on success fall through to the accept loop. -/
def run_server_setup (env : NetEnv) (s : ServerState) : SetupResult :=
  if env.socket_fd < 0 then
    { state := { s with server_fd := env.socket_fd, running := false },
      events := [⟨Priority.ERROR, "Socket creation failed", false⟩],
      stop_called := false, stop_reached_join := false, listening := false }
  else
    let s := { s with server_fd := env.socket_fd }
    if !env.setsockopt_ok then
      let r := stop s
      { state := r.state,
        events := ⟨Priority.ERROR, "Socket setsockopt failed", false⟩ :: r.events,
        stop_called := true, stop_reached_join := r.joined, listening := false }
    else if !env.bind_ok then
      let r := stop s
      { state := r.state,
        events := ⟨Priority.ERROR, "Address bind failed", false⟩ :: r.events,
        stop_called := true, stop_reached_join := r.joined, listening := false }
    else if !env.listen_ok then
      let r := stop s
      { state := r.state,
        events := ⟨Priority.ERROR, "Listen failed", false⟩ :: r.events,
        stop_called := true, stop_reached_join := r.joined, listening := false }
    else
      { state := s, events := [], stop_called := false,
        stop_reached_join := false, listening := true }

/-- A server on which `start 8080` has just succeeded (running, thread
spawned and joinable, socket not yet created by the server thread). -/
def startedState : ServerState :=
  (start initialServer 8080 (some 1) (some 1) true).state

/-- A server observed while running and serving: running flag set, fd 4
bound, handler and callback stored, server thread joinable. -/
def runningState : ServerState :=
  { port := 8080, running := true, command_handler := some 1, server_fd := 4,
    callback := some 1, thread_joinable := true }

/-! ## Theorems for the claims -/

/-- Lookup in an association list whose keys are pairwise distinct finds
exactly the registered entry: the `unordered_map` behaviour that
`TCP_Commands::initializeHandlers` relies on. -/
theorem find_registered {α : Type} (l : List (String × α)) (k : String) (v : α)
    (hnd : (l.map Prod.fst).Nodup) (hmem : (k, v) ∈ l) :
    l.find? (fun p => p.fst == k) = some (k, v) := by
  induction l with
  | nil => simp at hmem
  | cons p rest ih =>
      simp only [List.map_cons, List.nodup_cons] at hnd
      rcases List.mem_cons.mp hmem with heq | hmem2
      · subst heq
        simp
      · have hne : (p.fst == k) = false := by
          simp only [beq_eq_false_iff_ne, ne_eq]
          intro hk
          exact hnd.1 (hk ▸ List.mem_map_of_mem Prod.fst hmem2)
      -- the head does not match, so the search continues in the tail
        simp only [List.find?_cons, hne]
        exact ih hnd.2 hmem2

/-- C1: for every command name registered in the dispatcher,
`processCommand` with that name and any argument returns exactly the
registered handler's result for that argument; for every unregistered
name it returns the standardized unknown-command message containing the
submitted name; `handleCommand` forwards to `processCommand`; and the
response to the unregistered name "bogus" contains the literal substring
"Unknown command 'bogus'" and mentions "help". -/
theorem C1_dispatch_contract (name arg : String) :
    (∀ h : String → String, (name, h) ∈ TCP_Commands.command_handlers →
      TCP_Commands.processCommand name arg = h arg) ∧
    (name ∉ TCP_Commands.command_handlers.map Prod.fst →
      TCP_Commands.processCommand name arg =
        "ERROR: Unknown command '" ++ name ++ "'. Type 'help' for a list of commands.") ∧
    TCP_Commands.handleCommand name arg = TCP_Commands.processCommand name arg ∧
    (∃ pre post, TCP_Commands.processCommand "bogus" arg =
        pre ++ "Unknown command 'bogus'" ++ post) ∧
    (∃ pre post, TCP_Commands.processCommand "bogus" arg =
        pre ++ "help" ++ post) := by
  refine ⟨?_, ?_, rfl, ?_, ?_⟩
  · intro h hmem
    have hfind := find_registered TCP_Commands.command_handlers name h
      (by decide) hmem
    simp [TCP_Commands.processCommand, TCP_Commands.findHandler, hfind]
  · intro hnot
    have hfind : TCP_Commands.command_handlers.find? (fun p => p.fst == name) = none := by
      rw [List.find?_eq_none]
      intro p hp
      simp only [beq_iff_eq]
      intro hpe
      exact hnot (hpe ▸ List.mem_map_of_mem Prod.fst hp)
    simp [TCP_Commands.processCommand, TCP_Commands.findHandler, hfind]
  · exact ⟨"ERROR: ", ". Type 'help' for a list of commands.", rfl⟩
  · exact ⟨"ERROR: Unknown command 'bogus'. Type '", "' for a list of commands.", rfl⟩

/-- Witness for C1 at the registered name "power" with argument "100" and
at the unregistered name "bogus". -/
theorem C1_witness :
    TCP_Commands.processCommand "power" "100" = "Power set to 100" ∧
    TCP_Commands.processCommand "bogus" "" =
      "ERROR: Unknown command 'bogus'. Type 'help' for a list of commands." := by
  constructor
  · have hmem : ("power", fun arg => TCP_Commands.handlePower arg) ∈
        TCP_Commands.command_handlers := by
      unfold TCP_Commands.command_handlers
      exact List.mem_cons_of_mem _ (List.mem_cons_of_mem _
        (List.mem_cons_of_mem _ (List.mem_cons_self _ _)))
    exact (C1_dispatch_contract "power" "100").1 _ hmem
  · exact (C1_dispatch_contract "bogus" "").2.1 (by decide)

/-- C2: the single-shot exchange of `handle_client` with the example
dispatcher maps the request "power 100" to exactly the bytes
"Power set to 100\n" handed to `send`, and the request "power" (no
argument) to exactly "Power <example response>\n". -/
theorem C2_round_trip :
    (handle_client TCP_Commands.handleCommand 9 "power 100").written =
      some "Power set to 100\n" ∧
    (handle_client TCP_Commands.handleCommand 5 "power").written =
      some "Power <example response>\n" :=
  ⟨rfl, rfl⟩

/-- C3 counterexample: the parse step applied to the raw input
"  freq   14074000  " does not yield the pair ("freq", "14074000")
claimed — `arg = input.substr(pos + 1)` keeps the two extra spaces that
follow the first separating space. -/
theorem C3_counterexample :
    ¬ parseInput (trimInput "  freq   14074000  ") = ("freq", "14074000") := by
  decide

/-- C3 amended: the parse step applied to "  freq   14074000  " yields
command "freq" and argument "  14074000" — the first space is consumed as
the separator and the remaining two spaces stay at the front of the
argument; `handle_client` dispatches exactly that pair. -/
theorem C3_parse_amended :
    parseInput (trimInput "  freq   14074000  ") = ("freq", "  14074000") ∧
    (handle_client TCP_Commands.handleCommand 19 "  freq   14074000  ").dispatched =
      some ("freq", "  14074000") :=
  ⟨rfl, rfl⟩

/-- C4 counterexample: `start` on an already-running server returns false
but emits its status event with DEBUG severity, not the claimed ERROR
severity. -/
theorem C4_counterexample :
    (start runningState 9090 (some 2) none true).ret = false ∧
    (start runningState 9090 (some 2) none true).events =
      [⟨Priority.DEBUG, "Server is already running.", false⟩] ∧
    Priority.DEBUG ≠ Priority.ERROR :=
  ⟨rfl, rfl, by decide⟩

/-- C4 amended: `start` on an already-running server returns false and
emits exactly one status event, with DEBUG severity; `start` on a
non-running server with a null handler returns false and emits exactly
one status event, with ERROR severity. -/
theorem C4_start_failfast (s : ServerState) (port : Int) (handler cb : Option Nat)
    (spawn_ok : Bool) :
    (s.running = true →
      (start s port handler cb spawn_ok).ret = false ∧
      (start s port handler cb spawn_ok).events =
        [⟨Priority.DEBUG, "Server is already running.", false⟩]) ∧
    (s.running = false → handler = none →
      (start s port handler cb spawn_ok).ret = false ∧
      (start s port handler cb spawn_ok).events =
        [⟨Priority.ERROR, "Invalid command handler provided.", false⟩]) := by
  constructor
  · intro hrun
    cases cb <;> simp [start, hrun]
  · intro hrun hnull
    subst hnull
    cases cb <;> simp [start, hrun]

/-- Witness for C4: the already-running branch at `runningState` and the
null-handler branch at the freshly constructed server. -/
theorem C4_witness :
    ((start runningState 1 (some 1) none true).ret = false ∧
      (start runningState 1 (some 1) none true).events =
        [⟨Priority.DEBUG, "Server is already running.", false⟩]) ∧
    ((start initialServer 1 none none true).ret = false ∧
      (start initialServer 1 none none true).events =
        [⟨Priority.ERROR, "Invalid command handler provided.", false⟩]) :=
  ⟨(C4_start_failfast runningState 1 (some 1) none true).1 rfl,
   (C4_start_failfast initialServer 1 none none true).2 rfl rfl⟩

/-- C5 counterexample: `start` on an already-running server does not
leave the whole state unchanged — the callback argument is stored before
the running check, so the stored status callback is replaced. -/
theorem C5_counterexample :
    runningState.running = true ∧
    (start runningState 9090 (some 2) (some 2) true).state.callback ≠
      runningState.callback :=
  ⟨rfl, by decide⟩

/-- C5 amended: `start` on an already-running server returns false,
spawns no second accept-loop thread, and leaves the listening socket
descriptor, port, running flag and command-handler reference unchanged;
the only state change is that the stored status callback is replaced
whenever a non-null callback argument is supplied. -/
theorem C5_start_frame (s : ServerState) (port : Int) (handler cb : Option Nat)
    (spawn_ok : Bool) (hrun : s.running = true) :
    (start s port handler cb spawn_ok).ret = false ∧
    (start s port handler cb spawn_ok).spawned = false ∧
    (start s port handler cb spawn_ok).state.server_fd = s.server_fd ∧
    (start s port handler cb spawn_ok).state.port = s.port ∧
    (start s port handler cb spawn_ok).state.running = s.running ∧
    (start s port handler cb spawn_ok).state.command_handler = s.command_handler ∧
    (start s port handler cb spawn_ok).state.thread_joinable = s.thread_joinable ∧
    (start s port handler cb spawn_ok).state.callback =
      (if cb.isSome then cb else s.callback) := by
  cases cb <;> simp [start, hrun]

/-- Witness for C5 at `runningState` with a replacement callback. -/
theorem C5_witness :
    (start runningState 9090 (some 2) (some 2) true).ret = false ∧
    (start runningState 9090 (some 2) (some 2) true).spawned = false ∧
    (start runningState 9090 (some 2) (some 2) true).state.server_fd =
      runningState.server_fd ∧
    (start runningState 9090 (some 2) (some 2) true).state.port =
      runningState.port ∧
    (start runningState 9090 (some 2) (some 2) true).state.running =
      runningState.running ∧
    (start runningState 9090 (some 2) (some 2) true).state.command_handler =
      runningState.command_handler ∧
    (start runningState 9090 (some 2) (some 2) true).state.thread_joinable =
      runningState.thread_joinable ∧
    (start runningState 9090 (some 2) (some 2) true).state.callback =
      (if (some 2 : Option Nat).isSome then some 2 else runningState.callback) :=
  C5_start_frame runningState 9090 (some 2) (some 2) true rfl

/-- C6: `stop` on a server that is not running is a no-op — the state is
returned unchanged, no status event is emitted, and no join happens. -/
theorem C6_stop_idle_noop (s : ServerState) (h : s.running = false) :
    stop s = { state := s, events := [], joined := false } := by
  simp [stop, h]

/-- Witness for C6 at the freshly constructed (idle) server. -/
theorem C6_witness :
    stop initialServer = { state := initialServer, events := [], joined := false } :=
  C6_stop_idle_noop initialServer rfl

/-- C7: a zero-or-negative read closes the connection and returns without
touching the dispatcher; the dispatcher is invoked exactly when the read
returned a positive byte count; and the socket is closed on every exit
path of `handle_client`. -/
theorem C7_read_guard (handler : String → String → String) (bytes_read : Int)
    (buffer : String) :
    (bytes_read ≤ 0 →
      handle_client handler bytes_read buffer =
        { dispatched := none, written := none, closed := true }) ∧
    ((handle_client handler bytes_read buffer).dispatched.isSome ↔ 0 < bytes_read) ∧
    (handle_client handler bytes_read buffer).closed = true := by
  rcases le_or_lt bytes_read 0 with h | h
  · simp [handle_client, h]
  · simp [handle_client, not_le.mpr h, h]

/-- Witness for C7 at a read result of −1 (client closed / error). -/
theorem C7_witness :
    handle_client TCP_Commands.handleCommand (-1) "power" =
      { dispatched := none, written := none, closed := true } :=
  (C7_read_guard TCP_Commands.handleCommand (-1) "power").1 (by decide)

/-- C8 counterexample: after a successful `start`, the running flag is
already true while the listening socket does not even exist yet
(fd is still −1, so nothing has been bound), and in the run where
`bind` fails the call to `start` has returned true — not the claimed
false — while the server thread later reverts the running flag. -/
theorem C8_counterexample :
    startedState.running = true ∧
    startedState.server_fd = -1 ∧
    (start initialServer 8080 (some 1) (some 1) true).ret = true ∧
    (run_server_setup ⟨3, true, false, true⟩ startedState).state.running = false :=
  ⟨rfl, rfl, rfl, rfl⟩

/-- C8 amended: `start` on an idle server with a valid handler sets the
running flag and returns true before any socket is bound (the listening
fd is untouched by `start` itself); binding happens asynchronously in the
server thread, and when `bind` fails there the thread emits an ERROR
event and reverts the server to idle (running false) via `stop` — the
bind failure is never reported through `start`'s return value. -/
theorem C8_start_async_bind (s : ServerState) (port : Int) (hid : Nat)
    (cb : Option Nat) (env : NetEnv) (hidle : s.running = false)
    (hfd : 0 ≤ env.socket_fd) (hso : env.setsockopt_ok = true)
    (hbind : env.bind_ok = false) :
    (start s port (some hid) cb true).ret = true ∧
    (start s port (some hid) cb true).state.running = true ∧
    (start s port (some hid) cb true).state.server_fd = s.server_fd ∧
    (run_server_setup env (start s port (some hid) cb true).state).state.running =
      false ∧
    (run_server_setup env (start s port (some hid) cb true).state).events.head? =
      some ⟨Priority.ERROR, "Address bind failed", false⟩ := by
  have hnlt : ¬ env.socket_fd < 0 := by omega
  have hne : (env.socket_fd != -1) = true := by
    simp only [bne_iff_ne, ne_eq]
    omega
  cases cb <;>
    simp [start, run_server_setup, stop, hidle, hso, hbind, hnlt, hne]

/-- Witness for C8: idle server, port 8080, handler tag 1, socket fd 3,
`setsockopt` succeeds, `bind` fails. -/
theorem C8_witness :
    (start initialServer 8080 (some 1) (some 1) true).ret = true ∧
    (start initialServer 8080 (some 1) (some 1) true).state.running = true ∧
    (start initialServer 8080 (some 1) (some 1) true).state.server_fd =
      initialServer.server_fd ∧
    (run_server_setup ⟨3, true, false, true⟩
      (start initialServer 8080 (some 1) (some 1) true).state).state.running = false ∧
    (run_server_setup ⟨3, true, false, true⟩
      (start initialServer 8080 (some 1) (some 1) true).state).events.head? =
      some ⟨Priority.ERROR, "Address bind failed", false⟩ :=
  C8_start_async_bind initialServer 8080 1 (some 1) ⟨3, true, false, true⟩ rfl
    (by decide) rfl rfl

/-- C9: on a started server, every setup error path of `run_server`
(`setsockopt`, `bind`, `listen` failure) invokes `stop()` and that call
reaches `server_thread_.join()` — and since `run_server` executes on the
server thread itself, the join is a self-join; the claimed unreachability
of the self-join situation fails, exactly on the error paths the claim
lists. -/
theorem C9_self_join_bug :
    (run_server_setup ⟨3, true, false, true⟩ startedState).stop_called = true ∧
    (run_server_setup ⟨3, true, false, true⟩ startedState).stop_reached_join = true ∧
    (run_server_setup ⟨4, false, true, true⟩ startedState).stop_reached_join = true ∧
    (run_server_setup ⟨5, true, true, false⟩ startedState).stop_reached_join = true :=
  ⟨rfl, rfl, rfl, rfl⟩

/-- C10: a positive read whose bytes trim to the empty string still
reaches the dispatcher with command "" and argument "", and the client
is sent exactly the unknown-command message for '' plus one newline. -/
theorem C10_empty_input (bytes_read : Int) (buffer : String)
    (hpos : 0 < bytes_read) (hempty : trimInput buffer = "") :
    handle_client TCP_Commands.handleCommand bytes_read buffer =
      { dispatched := some ("", ""),
        written :=
          some "ERROR: Unknown command ''. Type 'help' for a list of commands.\n",
        closed := true } := by
  have h : ¬ bytes_read ≤ 0 := by omega
  simp only [handle_client, if_neg h, hempty]
  rfl

/-- Witness for C10 at a 4-byte all-whitespace read. -/
theorem C10_witness :
    handle_client TCP_Commands.handleCommand 4 " \t\r\n" =
      { dispatched := some ("", ""),
        written :=
          some "ERROR: Unknown command ''. Type 'help' for a list of commands.\n",
        closed := true } :=
  C10_empty_input 4 " \t\r\n" (by decide) (by decide)

end TCPServerProof
